import Mathlib

/-!
Shallow embedding of the three browser-side page controllers of the
trading-strategy management console: `dashboard.js`, `api_management.js` and
`add_strategy.js`.

Modelling conventions:
* JavaScript numbers arriving in backend JSON are modelled as exact rationals
  (`ℚ`); a JSON `null` in a numeric slot is `Option.none`, and JavaScript
  arithmetic coercion `ToNumber(null) = 0` is the function `jsToNum`.
* Payload objects built by the form handlers are association lists
  `List (String × JsVal)` with unique keys; property write, read and `delete`
  are `jsObjSet`, `jsObjGet`, `jsObjDelete`.
* DOM rendering is modelled structurally: each render function produces a view
  value recording exactly the data the template string interpolates, with
  `NumDisplay` recording a number together with the `toFixed` precision used
  to print it (or the literal fallback text the code uses instead).
-/

/-- A JavaScript value as it can appear in the payload objects built by the
form submit handlers: a string, a finite number, `NaN`, or a boolean. -/
inductive JsVal where
  | str (s : String)
  | num (q : ℚ)
  | nan
  | bool (b : Bool)
  deriving DecidableEq

/-- JavaScript `ToBoolean` on the values of `JsVal`: the empty string, `0`,
`NaN` and `false` are falsy. -/
def JsVal.truthy : JsVal → Bool
  | .str s => if s = "" then false else true
  | .num q => if q = 0 then false else true
  | .nan => false
  | .bool b => b

/-- Truthiness of a property read: an absent property (`undefined`) is falsy. -/
def jsTruthyOpt : Option JsVal → Bool
  | none => false
  | some v => v.truthy

/-- Property read `obj[k]` on an association-list object: first match wins
(the lists built here never hold duplicate keys). -/
def jsObjGet {α : Type} : List (String × α) → String → Option α
  | [], _ => none
  | (k0, v) :: rest, k => if k0 = k then some v else jsObjGet rest k

/-- Property write `obj[k] = v`: replaces the value at an existing key in
place (JavaScript keeps the original insertion position), otherwise appends
the new key at the end. -/
def jsObjSet {α : Type} : List (String × α) → String → α → List (String × α)
  | [], k, v => [(k, v)]
  | (k0, v0) :: rest, k, v =>
    if k0 = k then (k, v) :: rest else (k0, v0) :: jsObjSet rest k v

/-- Property removal `delete obj[k]`. -/
def jsObjDelete {α : Type} : List (String × α) → String → List (String × α)
  | [], _ => []
  | (k0, v0) :: rest, k =>
    if k0 = k then jsObjDelete rest k else (k0, v0) :: jsObjDelete rest k

/-- A JSON value as produced by `JSON.stringify` of a payload object. -/
inductive JsonVal where
  | str (s : String)
  | num (q : ℚ)
  | null
  | bool (b : Bool)
  deriving DecidableEq

/-- `JSON.stringify` of a single property value: `NaN` serialises as `null`. -/
def JsVal.toJson : JsVal → JsonVal
  | .str s => .str s
  | .num q => .num q
  | .nan => .null
  | .bool b => .bool b

/-- `JSON.stringify` of a payload object, keeping the key order. -/
def serializeBody (l : List (String × JsVal)) : List (String × JsonVal) :=
  l.map (fun kv => (kv.1, kv.2.toJson))

/-- JavaScript numeric coercion of a nullable number: `ToNumber(null) = 0`. -/
def jsToNum (x : Option ℚ) : ℚ := x.getD 0

/-- JavaScript `String.prototype.substring start stop` (with `stop` absent
modelled as `none`): both indices are clamped to `[0, length]` and swapped if
out of order.  Callers translate a possibly negative JS argument such as
`length - 4` by Nat subtraction, which clamps at `0` exactly as JS does. -/
def jsSubstring (s : String) (start : Nat) (stop : Option Nat) : String :=
  let l := s.toList
  let len := l.length
  let b := min start len
  let e := min (stop.getD len) len
  let lo := min b e
  let hi := max b e
  String.mk ((l.drop lo).take (hi - lo))

/-- Whether `p` is a prefix of `l`, as a boolean. -/
def isPrefixB : List Char → List Char → Bool
  | [], _ => true
  | _ :: _, [] => false
  | p :: ps, c :: cs => p = c && isPrefixB ps cs

/-- Whether `pat` occurs as a contiguous run inside `l`. -/
def containsAux (pat : List Char) : List Char → Bool
  | [] => isPrefixB pat []
  | c :: rest => isPrefixB pat (c :: rest) || containsAux pat rest

/-- JavaScript `s.includes pat` (substring containment). -/
def strContains (s pat : String) : Bool := containsAux pat.toList s.toList

/-- Whitespace skipped by `parseFloat` (the common whitespace characters). -/
def isJsSpace (c : Char) : Bool :=
  c = ' ' || c = '\t' || c = '\n' || c = '\r'

/-- Decimal digit test. -/
def isDigitB (c : Char) : Bool := '0' ≤ c && c ≤ '9'

/-- Value of a digit run, most significant first. -/
def digitsVal (l : List Char) : Nat :=
  l.foldl (fun n c => 10 * n + (c.toNat - '0'.toNat)) 0

/-- Model of JavaScript `parseFloat`: skip leading whitespace, read an
optional sign, a digit run with optional fractional part, an optional
well-formed exponent, and ignore any trailing garbage; `none` models `NaN`
(no digits at all).  The `Infinity` literal is not modelled; no input in this
development uses it. -/
def parseFloatQ (s : String) : Option ℚ :=
  let l0 := s.toList.dropWhile isJsSpace
  let sign : ℚ := if l0.head? = some '-' then -1 else 1
  let l := if l0.head? = some '-' ∨ l0.head? = some '+' then l0.tail else l0
  let intPart := l.takeWhile isDigitB
  let l2 := l.dropWhile isDigitB
  let fracPart := if l2.head? = some '.' then l2.tail.takeWhile isDigitB else []
  let l3 := if l2.head? = some '.' then l2.tail.dropWhile isDigitB else l2
  if intPart.isEmpty && fracPart.isEmpty then none
  else
    let mantissa : ℚ :=
      (digitsVal intPart : ℚ) + (digitsVal fracPart : ℚ) / ((10 : ℚ) ^ fracPart.length)
    let expVal : Int :=
      match l3 with
      | c :: rest =>
        if c = 'e' ∨ c = 'E' then
          let esign : Int := if rest.head? = some '-' then -1 else 1
          let rest2 := if rest.head? = some '-' ∨ rest.head? = some '+' then rest.tail else rest
          let ed := rest2.takeWhile isDigitB
          if ed.isEmpty then 0 else esign * (digitsVal ed : Int)
        else 0
      | [] => 0
    let scaled : ℚ :=
      if 0 ≤ expVal then mantissa * (10 : ℚ) ^ expVal.toNat
      else mantissa / (10 : ℚ) ^ ((-expVal).toNat)
    some (sign * scaled)

/-- `parseFloat` as a `JsVal`: an unparsable string yields `NaN`. -/
def jsParseFloat (s : String) : JsVal :=
  match parseFloatQ s with
  | some q => .num q
  | none => .nan

/-! ## Dashboard controller (`dashboard.js`) -/

/-- `strategy_config` of a dashboard item. -/
structure StrategyConfig where
  id : String
  strategy_name : String
  trading_pair : String
  api_id : String
  deriving DecidableEq

/-- `active_state` of a dashboard item.  The code null-checks
`current_position_quantity`, `average_entry_price` and `realized_pnl_usdt`
(lines 51, 52, 56 of `dashboard.js`), so those are nullable here;
`total_invested_usdt` is only ever compared with `!== 0` and is a plain
number in the backend contract. -/
structure ActiveState where
  is_running : Bool
  current_position_quantity : Option ℚ
  average_entry_price : Option ℚ
  realized_pnl_usdt : Option ℚ
  total_invested_usdt : ℚ
  deriving DecidableEq

/-- One element of `data.strategies_data`. -/
structure DashboardItem where
  strategy_config : StrategyConfig
  active_state : Option ActiveState
  current_market_price : Option ℚ
  deriving DecidableEq

/-- A numeric slot of a card template: either the literal `N/A`, the literal
`0.00` used for a null realized PnL, or a value printed with
`toFixed decimals`. -/
inductive NumDisplay where
  | na
  | zeroDefault
  | fixed (value : ℚ) (decimals : Nat)
  deriving DecidableEq

/-- The `positionInfo` part of a card (lines 39, 50-54, 60). -/
inductive PositionBlock where
  | notActive
  | noCurrentPosition
  | active (avgEntry quantity value : NumDisplay)
  deriving DecidableEq

/-- The `pnlInfo` part of a card (lines 40, 55-58, 61). -/
inductive PnlBlock where
  | dash
  | noPosition (realized : NumDisplay)
  | computed (realized unrealized percentage : NumDisplay) (profitClass : Bool)
  deriving DecidableEq

/-- Display of `realized_pnl_usdt`: `toFixed 2` when non-null, else the
literal `0.00`. -/
def realizedDisplay : Option ℚ → NumDisplay
  | some v => .fixed v 2
  | none => .zeroDefault

/-- Everything a strategy card template interpolates. -/
structure CardView where
  strategyName : String
  tradingPair : String
  apiIdShort : String
  statusText : String
  priceDisplay : NumDisplay
  positionBlock : PositionBlock
  pnlBlock : PnlBlock
  runPauseLabel : String
  deriving DecidableEq

/-- Per-item rendering of `renderStrategyCards` (lines 30-77 of
`dashboard.js`). -/
def renderCard (item : DashboardItem) : CardView :=
  let state := item.active_state
  let currentPrice := item.current_market_price
  let statusText :=
    match state with
    | some s => if s.is_running then "Running" else "Paused/Stopped"
    | none => "Not Started"
  let runPauseLabel :=
    match state with
    | some s => if s.is_running then "Pause" else "Run"
    | none => "Run"
  let priceDisplay :=
    match currentPrice with
    | some p => NumDisplay.fixed p 4
    | none => NumDisplay.na
  let base : CardView :=
    { strategyName := item.strategy_config.strategy_name
      tradingPair := item.strategy_config.trading_pair
      apiIdShort := jsSubstring item.strategy_config.api_id 0 (some 8)
      statusText := statusText
      priceDisplay := priceDisplay
      positionBlock := .notActive
      pnlBlock := .dash
      runPauseLabel := runPauseLabel }
  match state, currentPrice with
  | some s, some p =>
    if 0 < jsToNum s.current_position_quantity then
      let q := jsToNum s.current_position_quantity
      let positionValue := q * p
      let unrealizedPnl := (p - jsToNum s.average_entry_price) * q
      let pnlPercentage :=
        if s.total_invested_usdt ≠ 0 then unrealizedPnl / s.total_invested_usdt * 100 else 0
      { base with
          positionBlock := .active
            (match s.average_entry_price with | some a => .fixed a 4 | none => .na)
            (match s.current_position_quantity with | some q0 => .fixed q0 4 | none => .na)
            (.fixed positionValue 2)
          pnlBlock := .computed (realizedDisplay s.realized_pnl_usdt)
            (.fixed unrealizedPnl 2) (.fixed pnlPercentage 2)
            (if 0 ≤ unrealizedPnl then true else false) }
    else
      { base with
          positionBlock := .noCurrentPosition
          pnlBlock := .noPosition (realizedDisplay s.realized_pnl_usdt) }
  | some s, none =>
      { base with
          positionBlock := .noCurrentPosition
          pnlBlock := .noPosition (realizedDisplay s.realized_pnl_usdt) }
  | none, _ => base

/-- The exact position value shown by a card, when one is shown. -/
def CardView.positionValue? (c : CardView) : Option ℚ :=
  match c.positionBlock with
  | .active _ _ (.fixed v _) => some v
  | _ => none

/-- The average-entry display slot of a card, when a position block is shown. -/
def CardView.avgEntryDisplay? (c : CardView) : Option NumDisplay :=
  match c.positionBlock with
  | .active d _ _ => some d
  | _ => none

/-- The exact unrealized PnL shown by a card, when one is shown. -/
def CardView.unrealizedPnl? (c : CardView) : Option ℚ :=
  match c.pnlBlock with
  | .computed _ (.fixed v _) _ _ => some v
  | _ => none

/-- The exact PnL percentage shown by a card, when one is shown. -/
def CardView.pnlPercentage? (c : CardView) : Option ℚ :=
  match c.pnlBlock with
  | .computed _ _ (.fixed v _) _ => some v
  | _ => none

/-- Whether the card shows a computed PnL block rather than a placeholder. -/
def CardView.hasComputedPnl (c : CardView) : Bool :=
  match c.pnlBlock with
  | .computed _ _ _ _ => true
  | _ => false

/-- Content of `#strategy-cards-container` after a render or an error. -/
inductive ContainerContent where
  | initialHtml (html : String)
  | noStrategiesMessage
  | cards (cs : List CardView)
  | fetchErrorMessage
  deriving DecidableEq

/-- `renderStrategyCards` (lines 22-28): empty or missing data yields the
no-strategies message, otherwise one card per item. -/
def renderStrategyCards (strategiesData : Option (List DashboardItem)) : ContainerContent :=
  match strategiesData with
  | none => .noStrategiesMessage
  | some l => if l.isEmpty then .noStrategiesMessage else .cards (l.map renderCard)

/-- Outcome of one `fetch` of `/ui/dashboard-data`: network failure, non-2xx
status, or a parsed body (whose `strategies_data` field may be absent). -/
inductive DashFetchOutcome where
  | transportError
  | httpError (status : Nat)
  | ok (strategies_data : Option (List DashboardItem))
  deriving DecidableEq

/-- Both failure cases land in the same `catch` block. -/
def DashFetchOutcome.isFailure : DashFetchOutcome → Bool
  | .ok _ => false
  | _ => true

/-- Page state touched by `fetchDashboardData`.  `hasLoadingMessage` records
whether the `#loading-strategies` element existed when the page loaded (the
captured reference stays non-null even after a render detaches the node);
`loadingText` is the text of that node. -/
structure DashboardPageState where
  hasLoadingMessage : Bool
  loadingText : String
  container : ContainerContent
  deriving DecidableEq

/-- One run of `fetchDashboardData` (lines 5-20 of `dashboard.js`): on
success the container is rebuilt; on failure, if the loading-message
reference exists its text becomes the error text, otherwise the container
content is replaced by the error paragraph. -/
def fetchDashboardStep (st : DashboardPageState) (o : DashFetchOutcome) : DashboardPageState :=
  match o with
  | .ok d => { st with container := renderStrategyCards d }
  | _ =>
    if st.hasLoadingMessage then { st with loadingText := "Error loading strategies." }
    else { st with container := .fetchErrorMessage }

/-! ## API-key manager (`api_management.js`) -/

/-- A credential record.  Read endpoints never return the secret, but the
field is carried (as possibly present) precisely to state that rendering
never looks at it. -/
structure ApiKeyRecord where
  id : String
  «alias» : String
  api_key : String
  secret_key : Option String
  mode : String
  connection_status : String
  deriving DecidableEq

/-- The cells a table row template interpolates (lines 21-30). -/
structure ApiKeyRow where
  aliasCell : String
  keyCell : String
  modeCell : String
  statusCell : String
  statusColor : String
  editId : String
  deleteId : String
  deriving DecidableEq

/-- Row rendering inside `fetchApiKeys` (lines 18-31 of
`api_management.js`); `keyDisplay` is
`api_key.substring(0,4) + ... + api_key.substring(api_key.length - 4)`. -/
def renderApiKeyRow (k : ApiKeyRecord) : ApiKeyRow :=
  { aliasCell := k.«alias»
    keyCell :=
      jsSubstring k.api_key 0 (some 4) ++ "..." ++
        jsSubstring k.api_key (k.api_key.length - 4) none
    modeCell := k.mode
    statusCell := k.connection_status
    statusColor := if k.connection_status = "connected" then "green" else "red"
    editId := k.id
    deleteId := k.id }

/-- Content of the API-key table body. -/
inductive ApiTableContent where
  | initialHtml (html : String)
  | rows (rs : List ApiKeyRow)
  | errorRow
  deriving DecidableEq

/-- Outcome of one `fetch` of `/apis/`. -/
inductive ApiFetchOutcome where
  | transportError
  | httpError (status : Nat)
  | ok (keys : List ApiKeyRecord)
  deriving DecidableEq

/-- Both failure cases land in the same `catch` block. -/
def ApiFetchOutcome.isFailure : ApiFetchOutcome → Bool
  | .ok _ => false
  | _ => true

/-- Page state of the API-key manager: the table body, the add/edit form
fields, the form container visibility and the nullable edit id. -/
structure ApiPageState where
  tableBody : ApiTableContent
  formVisible : Bool
  formAlias : String
  formApiKey : String
  formSecretKey : String
  formMode : String
  currentEditApiId : Option String
  deriving DecidableEq

/-- One run of `fetchApiKeys` (lines 11-37 of `api_management.js`): success
rebuilds the table body from the records; failure replaces the body with the
single explanatory row.  Nothing else on the page is touched. -/
def fetchApiKeysStep (st : ApiPageState) (o : ApiFetchOutcome) : ApiPageState :=
  match o with
  | .ok keys => { st with tableBody := .rows (keys.map renderApiKeyRow) }
  | _ => { st with tableBody := .errorRow }

/-- The fields of the add/edit API-key form as submitted; `apiId` is the
hidden input that `FormData` captures and the handler deletes again. -/
structure ApiKeyFormFields where
  «alias» : String
  api_key : String
  secret_key : String
  mode : String
  apiId : String
  deriving DecidableEq

/-- `Object.fromEntries(new FormData(apiKeyForm).entries())` in form order. -/
def apiKeyFormEntries (f : ApiKeyFormFields) : List (String × JsVal) :=
  [("alias", .str f.«alias»), ("api_key", .str f.api_key),
   ("secret_key", .str f.secret_key), ("mode", .str f.mode),
   ("apiId", .str f.apiId)]

/-- Result of a submit handler: either blocked client-side (an alert, no
request) or an HTTP request with a JSON object body. -/
inductive SubmitAction where
  | blocked
  | request (url method : String) (body : List (String × JsVal))
  deriving DecidableEq

/-- The `apiKeyForm` submit handler (lines 55-105 of `api_management.js`):
in edit mode a falsy secret is deleted from the payload and the request is a
`PUT`; in add mode a falsy secret blocks the submit; the hidden `apiId` is
always deleted. -/
def apiKeySubmit (currentEditApiId : Option String) (f : ApiKeyFormFields) : SubmitAction :=
  let data := apiKeyFormEntries f
  match currentEditApiId with
  | some editId =>
    let d1 := if jsTruthyOpt (jsObjGet data "secret_key") then data
              else jsObjDelete data "secret_key"
    .request ("/apis/" ++ editId) "PUT" (jsObjDelete d1 "apiId")
  | none =>
    if jsTruthyOpt (jsObjGet data "secret_key") then
      .request "/apis/" "POST" (jsObjDelete data "apiId")
    else .blocked

/-! ## Strategy creation form (`add_strategy.js`) -/

/-- The three checkbox names the generic `FormData` loop skips (line 46). -/
def isCheckboxKey (k : String) : Bool :=
  k = "cyclic_execution" || k = "cover_orders_participate_in_profit_taking" ||
    k = "enable_order_timeout"

/-- The numeric-marker test of line 48: the key contains one of
`percentage`, `amount`, `multiplier`, `count`, `seconds`. -/
def hasNumericMarker (k : String) : Bool :=
  strContains k "percentage" || strContains k "amount" || strContains k "multiplier" ||
    strContains k "count" || strContains k "seconds"

/-- Inputs of one submit of the add-strategy form: the `FormData` entries in
form order, the checked state of the three checkboxes, and the value of the
`#order_timeout_seconds` input element (read directly on line 65). -/
structure AddStrategyInputs where
  formEntries : List (String × String)
  cyclic_execution : Bool
  cover_orders_participate_in_profit_taking : Bool
  enable_order_timeout : Bool
  order_timeout_seconds_value : String
  deriving DecidableEq

/-- The `formData.forEach` loop of lines 44-54: checkbox keys are skipped,
marker keys are `parseFloat`ed, everything else passes through as a string. -/
def buildFormDataObj (entries : List (String × String)) (acc : List (String × JsVal)) :
    List (String × JsVal) :=
  match entries with
  | [] => acc
  | (key, value) :: rest =>
    let acc1 :=
      if isCheckboxKey key then acc
      else if hasNumericMarker key then jsObjSet acc key (jsParseFloat value)
      else jsObjSet acc key (.str value)
    buildFormDataObj rest acc1

/-- The `data` object as it stands on line 67 of `add_strategy.js`, after
the `FormData` loop (lines 44-54), the three forced checkbox booleans
(lines 57-59) and the order-timeout special case (lines 61-66): when the
checkbox is off `order_timeout_seconds` is deleted, otherwise it is
re-parsed from the `#order_timeout_seconds` input element. -/
def addStrategyPayload (inp : AddStrategyInputs) : List (String × JsVal) :=
  let data0 := buildFormDataObj inp.formEntries []
  let data1 := jsObjSet data0 "cyclic_execution" (.bool inp.cyclic_execution)
  let data2 := jsObjSet data1 "cover_orders_participate_in_profit_taking"
    (.bool inp.cover_orders_participate_in_profit_taking)
  let data3 := jsObjSet data2 "enable_order_timeout" (.bool inp.enable_order_timeout)
  if inp.enable_order_timeout then
    jsObjSet data3 "order_timeout_seconds" (jsParseFloat inp.order_timeout_seconds_value)
  else jsObjDelete data3 "order_timeout_seconds"

/-- The `addStrategyForm` submit handler (lines 40-79 of `add_strategy.js`):
build the data object, then block with an alert when `data.api_id` is falsy
(lines 69-72), else `POST` the object as JSON to `/strategies/`. -/
def addStrategySubmit (inp : AddStrategyInputs) : SubmitAction :=
  if jsTruthyOpt (jsObjGet (addStrategyPayload inp) "api_id") then
    .request "/strategies/" "POST" (addStrategyPayload inp)
  else .blocked


/-! ## Concrete page data used by scenario conjuncts and witnesses -/

/-- A strategy configuration used by concrete scenarios. -/
def sampleConfig : StrategyConfig :=
  { id := "s1", strategy_name := "Grid", trading_pair := "BTCUSDT", api_id := "apikey01" }

/-- Active state for the exact-PnL witness: quantity 5, entry 1, invested 10. -/
def c1State : ActiveState :=
  { is_running := true, current_position_quantity := some 5, average_entry_price := some 1,
    realized_pnl_usdt := some 3, total_invested_usdt := 10 }

/-- Dashboard item for the exact-PnL witness: price 2. -/
def c1Item : DashboardItem :=
  { strategy_config := sampleConfig, active_state := some c1State,
    current_market_price := some 2 }

/-- Active state with `current_market_price = null` and quantity 5: the
placeholder scenario of the spec. -/
def c2ScenarioState : ActiveState :=
  { is_running := true, current_position_quantity := some 5, average_entry_price := some 1,
    realized_pnl_usdt := some 0, total_invested_usdt := 10 }

/-- Dashboard item of the placeholder scenario: a position but no price. -/
def c2ScenarioItem : DashboardItem :=
  { strategy_config := sampleConfig, active_state := some c2ScenarioState,
    current_market_price := none }

/-- Active state with `total_invested_usdt = 0` for the divide-by-zero guard
witness. -/
def c3State : ActiveState :=
  { is_running := true, current_position_quantity := some 4, average_entry_price := some 3,
    realized_pnl_usdt := none, total_invested_usdt := 0 }

/-- Dashboard item for the divide-by-zero guard witness. -/
def c3Item : DashboardItem :=
  { strategy_config := sampleConfig, active_state := some c3State,
    current_market_price := some 7 }

/-- Active state with a null `average_entry_price` but an open position. -/
def c10State : ActiveState :=
  { is_running := false, current_position_quantity := some 2, average_entry_price := none,
    realized_pnl_usdt := some 1, total_invested_usdt := 6 }

/-- Dashboard item for the null-entry-price behaviour: price 3, quantity 2. -/
def c10Item : DashboardItem :=
  { strategy_config := sampleConfig, active_state := some c10State,
    current_market_price := some 3 }

/-- A container holding one previously rendered card (a never-started
strategy renders without any arithmetic). -/
def c6PriorCards : ContainerContent :=
  .cards [renderCard { strategy_config := sampleConfig, active_state := none,
                       current_market_price := none }]

/-- Dashboard page whose loading element was absent at page load. -/
def c6StateNoIndicator : DashboardPageState :=
  { hasLoadingMessage := false, loadingText := "", container := c6PriorCards }

/-- Dashboard page whose loading element was present at page load. -/
def c6StateWithIndicator : DashboardPageState :=
  { hasLoadingMessage := true, loadingText := "Loading strategies...",
    container := c6PriorCards }

/-- API-key page state mid-edit, used to witness the frame condition of a
failed list fetch. -/
def c8State : ApiPageState :=
  { tableBody := .rows [], formVisible := true, formAlias := "main",
    formApiKey := "ABCDEFGH", formSecretKey := "", formMode := "live",
    currentEditApiId := some "3" }

/-- Edit-mode submission with the secret field left blank. -/
def c4BlankSecret : ApiKeyFormFields :=
  { «alias» := "acct", api_key := "ABCDEFGH12345678", secret_key := "", mode := "live",
    apiId := "9" }

/-- Edit-mode submission with a new secret entered. -/
def c4NewSecret : ApiKeyFormFields :=
  { «alias» := "acct", api_key := "ABCDEFGH12345678", secret_key := "fresh", mode := "live",
    apiId := "9" }

/-- Add-strategy submission with the order-timeout checkbox off. -/
def c5Unchecked : AddStrategyInputs :=
  { formEntries := [("strategy_name", "g"), ("api_id", "k1"), ("order_timeout_seconds", "")],
    cyclic_execution := false, cover_orders_participate_in_profit_taking := false,
    enable_order_timeout := false, order_timeout_seconds_value := "" }

/-- Add-strategy submission with the order-timeout checkbox on. -/
def c5Checked : AddStrategyInputs :=
  { formEntries := [("strategy_name", "g"), ("api_id", "k1"), ("order_timeout_seconds", ""),
      ("enable_order_timeout", "on")],
    cyclic_execution := false, cover_orders_participate_in_profit_taking := false,
    enable_order_timeout := true, order_timeout_seconds_value := "" }

/-- Submission whose blank `order_timeout_seconds` entry is dropped because
the enabling checkbox is off. -/
def c9DroppedInputs : AddStrategyInputs :=
  { formEntries := [("api_id", "k1"), ("order_timeout_seconds", "")],
    cyclic_execution := false, cover_orders_participate_in_profit_taking := false,
    enable_order_timeout := false, order_timeout_seconds_value := "" }

/-- Submission with a blank generic numeric field and a blank seconds field
with the checkbox on. -/
def c9BlankMarkerInputs : AddStrategyInputs :=
  { formEntries := [("api_id", "k1"), ("buy_amount", ""), ("order_timeout_seconds", ""),
      ("enable_order_timeout", "on")],
    cyclic_execution := false, cover_orders_participate_in_profit_taking := false,
    enable_order_timeout := true, order_timeout_seconds_value := "" }

/-! ## Association-list object lemmas -/

theorem jsObjGet_set_self {α : Type} (l : List (String × α)) (k : String) (v : α) :
    jsObjGet (jsObjSet l k v) k = some v := by
  induction l with
  | nil => simp [jsObjSet, jsObjGet]
  | cons kv rest ih =>
    obtain ⟨k0, v0⟩ := kv
    by_cases h : k0 = k <;> simp [jsObjSet, jsObjGet, h, ih]

theorem jsObjGet_set_other {α : Type} (l : List (String × α)) (k' k : String) (v : α)
    (h : k' ≠ k) : jsObjGet (jsObjSet l k' v) k = jsObjGet l k := by
  induction l with
  | nil => simp [jsObjSet, jsObjGet, h]
  | cons kv rest ih =>
    obtain ⟨k0, v0⟩ := kv
    by_cases h0 : k0 = k' <;> simp [jsObjSet, jsObjGet, h0, h, ih]

theorem jsObjGet_delete_self {α : Type} (l : List (String × α)) (k : String) :
    jsObjGet (jsObjDelete l k) k = none := by
  induction l with
  | nil => simp [jsObjDelete, jsObjGet]
  | cons kv rest ih =>
    obtain ⟨k0, v0⟩ := kv
    by_cases h : k0 = k <;> simp [jsObjDelete, jsObjGet, h, ih]

theorem jsObjGet_delete_other {α : Type} (l : List (String × α)) (k' k : String)
    (h : k' ≠ k) : jsObjGet (jsObjDelete l k') k = jsObjGet l k := by
  induction l with
  | nil => simp [jsObjDelete, jsObjGet]
  | cons kv rest ih =>
    obtain ⟨k0, v0⟩ := kv
    by_cases h0 : k0 = k'
    · subst h0
      simp [jsObjDelete, jsObjGet, h, ih]
    · by_cases h1 : k0 = k
      · subst h1
        simp [jsObjDelete, jsObjGet, h0]
      · simp [jsObjDelete, jsObjGet, h0, h1, ih]

theorem not_mem_jsObjDelete_self {α : Type} (l : List (String × α)) (k : String) (v : α) :
    (k, v) ∉ jsObjDelete l k := by
  induction l with
  | nil => simp [jsObjDelete]
  | cons kv rest ih =>
    obtain ⟨k0, v0⟩ := kv
    by_cases h : k0 = k
    · simpa [jsObjDelete, h] using ih
    · simp only [jsObjDelete, if_neg h, List.mem_cons, not_or]
      refine ⟨?_, ih⟩
      intro hk
      exact h (congrArg Prod.fst hk).symm

theorem jsObjGet_serializeBody (l : List (String × JsVal)) (k : String) :
    jsObjGet (serializeBody l) k = (jsObjGet l k).map JsVal.toJson := by
  induction l with
  | nil => simp [serializeBody, jsObjGet]
  | cons kv rest ih =>
    obtain ⟨k0, v0⟩ := kv
    by_cases h : k0 = k
    · simp [serializeBody, jsObjGet, h]
    · simpa [serializeBody, jsObjGet, h] using ih

/-! ## Dashboard rendering claims -/

theorem renderCard_computed (item : DashboardItem) (s : ActiveState) (q p : ℚ)
    (hs : item.active_state = some s) (hq : s.current_position_quantity = some q)
    (hq0 : 0 < q) (hp : item.current_market_price = some p) :
    renderCard item =
      { strategyName := item.strategy_config.strategy_name
        tradingPair := item.strategy_config.trading_pair
        apiIdShort := jsSubstring item.strategy_config.api_id 0 (some 8)
        statusText := if s.is_running then "Running" else "Paused/Stopped"
        priceDisplay := .fixed p 4
        positionBlock := .active
          (match s.average_entry_price with | some a => .fixed a 4 | none => .na)
          (.fixed q 4) (.fixed (q * p) 2)
        pnlBlock := .computed (realizedDisplay s.realized_pnl_usdt)
          (.fixed ((p - jsToNum s.average_entry_price) * q) 2)
          (.fixed (if s.total_invested_usdt ≠ 0 then
              (p - jsToNum s.average_entry_price) * q / s.total_invested_usdt * 100
            else 0) 2)
          (if 0 ≤ (p - jsToNum s.average_entry_price) * q then true else false)
        runPauseLabel := if s.is_running then "Pause" else "Run" } := by
  obtain ⟨cfg, ast, price⟩ := item
  dsimp only at hs hp ⊢
  subst hs
  subst hp
  unfold renderCard
  dsimp only
  rw [hq, if_pos (show (0 : ℚ) < jsToNum (some q) from hq0)]
  rfl

/-- C1: for a dashboard item whose active state has a positive position
quantity and whose market price is non-null (and whose entry price is a
number, as the stated formula presupposes), the rendered position value is
exactly `quantity * price` and the rendered unrealized PnL is exactly
`(price - avgEntry) * quantity`. -/
theorem dashboard_position_and_pnl_exact (item : DashboardItem) (s : ActiveState) (q p a : ℚ)
    (hs : item.active_state = some s) (hq : s.current_position_quantity = some q)
    (hq0 : 0 < q) (hp : item.current_market_price = some p)
    (ha : s.average_entry_price = some a) :
    (renderCard item).positionValue? = some (q * p) ∧
    (renderCard item).unrealizedPnl? = some ((p - a) * q) := by
  rw [renderCard_computed item s q p hs hq hq0 hp]
  constructor
  · rfl
  · show some ((p - jsToNum s.average_entry_price) * q) = _
    rw [ha]
    rfl

theorem dashboard_position_and_pnl_exact_witness :
    c1Item.active_state = some c1State ∧
    c1State.current_position_quantity = some 5 ∧ (0 : ℚ) < 5 ∧
    c1Item.current_market_price = some 2 ∧ c1State.average_entry_price = some 1 ∧
    (renderCard c1Item).positionValue? = some ((5 : ℚ) * 2) ∧
    (renderCard c1Item).unrealizedPnl? = some (((2 : ℚ) - 1) * 5) := by
  refine ⟨rfl, rfl, by decide, rfl, rfl, ?_, ?_⟩
  · exact (dashboard_position_and_pnl_exact c1Item c1State 5 2 1 rfl rfl (by decide) rfl rfl).1
  · exact (dashboard_position_and_pnl_exact c1Item c1State 5 2 1 rfl rfl (by decide) rfl rfl).2

/-- C3: with the PnL block shown and `total_invested_usdt = 0`, the rendered
PnL percentage is the guarded literal `0`; the division is never taken. -/
theorem dashboard_zero_invested_pct (item : DashboardItem) (s : ActiveState) (q p : ℚ)
    (hs : item.active_state = some s) (hq : s.current_position_quantity = some q)
    (hq0 : 0 < q) (hp : item.current_market_price = some p)
    (ht : s.total_invested_usdt = 0) :
    (renderCard item).pnlPercentage? = some 0 := by
  rw [renderCard_computed item s q p hs hq hq0 hp]
  show some (if s.total_invested_usdt ≠ 0 then
      (p - jsToNum s.average_entry_price) * q / s.total_invested_usdt * 100 else 0) = some 0
  rw [ht]
  simp

theorem dashboard_zero_invested_pct_witness :
    c3State.total_invested_usdt = 0 ∧ (0 : ℚ) < 4 ∧
    (renderCard c3Item).pnlPercentage? = some 0 := by
  refine ⟨rfl, by decide, ?_⟩
  exact dashboard_zero_invested_pct c3Item c3State 4 7 rfl rfl (by decide) rfl rfl

/-- C10: with a positive position and a non-null price but a null
`average_entry_price`, the card shows the `N/A` placeholder for the entry
price yet still shows a computed unrealized PnL equal to
`price * quantity` (the null entry is coerced to `0` in the subtraction). -/
theorem dashboard_null_avg_entry (item : DashboardItem) (s : ActiveState) (q p : ℚ)
    (hs : item.active_state = some s) (hq : s.current_position_quantity = some q)
    (hq0 : 0 < q) (hp : item.current_market_price = some p)
    (ha : s.average_entry_price = none) :
    (renderCard item).avgEntryDisplay? = some .na ∧
    (renderCard item).unrealizedPnl? = some (p * q) := by
  rw [renderCard_computed item s q p hs hq hq0 hp, ha]
  constructor
  · rfl
  · show some ((p - jsToNum none) * q) = some (p * q)
    rw [show jsToNum none = (0 : ℚ) from rfl, sub_zero]

theorem dashboard_null_avg_entry_witness :
    c10State.average_entry_price = none ∧ (0 : ℚ) < 2 ∧
    (renderCard c10Item).avgEntryDisplay? = some .na ∧
    (renderCard c10Item).unrealizedPnl? = some ((3 : ℚ) * 2) := by
  refine ⟨rfl, by decide, ?_, ?_⟩
  · exact (dashboard_null_avg_entry c10Item c10State 2 3 rfl rfl (by decide) rfl rfl).1
  · exact (dashboard_null_avg_entry c10Item c10State 2 3 rfl rfl (by decide) rfl rfl).2

theorem renderCard_notStarted (item : DashboardItem) (hs : item.active_state = none) :
    (renderCard item).positionBlock = PositionBlock.notActive ∧
    (renderCard item).pnlBlock = PnlBlock.dash := by
  obtain ⟨cfg, ast, price⟩ := item
  dsimp only at hs
  subst hs
  cases price with
  | none => exact ⟨rfl, rfl⟩
  | some p => exact ⟨rfl, rfl⟩

theorem renderCard_noPosition (item : DashboardItem) (s : ActiveState)
    (hs : item.active_state = some s)
    (h : ¬ 0 < jsToNum s.current_position_quantity ∨ item.current_market_price = none) :
    (renderCard item).positionBlock = PositionBlock.noCurrentPosition ∧
    (renderCard item).pnlBlock = PnlBlock.noPosition (realizedDisplay s.realized_pnl_usdt) := by
  obtain ⟨cfg, ast, price⟩ := item
  dsimp only at hs h
  subst hs
  cases price with
  | none => exact ⟨rfl, rfl⟩
  | some p =>
    have h' : ¬ 0 < jsToNum s.current_position_quantity := by
      rcases h with h | h
      · exact h
      · exact Option.noConfusion h
    unfold renderCard
    dsimp only
    rw [if_neg h']
    exact ⟨rfl, rfl⟩

/-- C2: the computed position/PnL block is rendered precisely when an active
state is present, the position quantity is positive and the market price is
non-null; in every other case the card shows a placeholder block, and in the
null-price, quantity-5 scenario it shows the no-current-position
placeholder. -/
theorem dashboard_pnl_block_iff (item : DashboardItem) :
    ((renderCard item).hasComputedPnl = true ↔
      ∃ s q, item.active_state = some s ∧ s.current_position_quantity = some q ∧ 0 < q ∧
        item.current_market_price.isSome = true) ∧
    ((renderCard item).hasComputedPnl = false →
      (renderCard item).positionBlock = PositionBlock.notActive ∨
        (renderCard item).positionBlock = PositionBlock.noCurrentPosition) ∧
    (renderCard c2ScenarioItem).positionBlock = PositionBlock.noCurrentPosition ∧
    (renderCard c2ScenarioItem).hasComputedPnl = false := by
  refine ⟨⟨?_, ?_⟩, ?_, rfl, rfl⟩
  · intro htrue
    cases hast : item.active_state with
    | none =>
      rw [CardView.hasComputedPnl, (renderCard_notStarted item hast).2] at htrue
      exact Bool.noConfusion htrue
    | some s =>
      by_cases hpos : 0 < jsToNum s.current_position_quantity
      · cases hpr : item.current_market_price with
        | none =>
          rw [CardView.hasComputedPnl,
            (renderCard_noPosition item s hast (Or.inr hpr)).2] at htrue
          exact Bool.noConfusion htrue
        | some p =>
          cases hqty : s.current_position_quantity with
          | none =>
            rw [hqty] at hpos
            exact absurd hpos (by norm_num [jsToNum])
          | some q =>
            rw [hqty] at hpos
            exact ⟨s, q, rfl, hqty, hpos, rfl⟩
      · rw [CardView.hasComputedPnl,
          (renderCard_noPosition item s hast (Or.inl hpos)).2] at htrue
        exact Bool.noConfusion htrue
  · rintro ⟨s, q, hs, hq, hq0, hp⟩
    obtain ⟨p, hp'⟩ := Option.isSome_iff_exists.mp hp
    rw [renderCard_computed item s q p hs hq hq0 hp']
    rfl
  · intro hfalse
    cases hast : item.active_state with
    | none => exact Or.inl (renderCard_notStarted item hast).1
    | some s =>
      by_cases hpos : 0 < jsToNum s.current_position_quantity
      · cases hpr : item.current_market_price with
        | none => exact Or.inr (renderCard_noPosition item s hast (Or.inr hpr)).1
        | some p =>
          cases hqty : s.current_position_quantity with
          | none =>
            rw [hqty] at hpos
            exact absurd hpos (by norm_num [jsToNum])
          | some q =>
            rw [hqty] at hpos
            rw [CardView.hasComputedPnl,
              (renderCard_computed item s q p hast hqty hpos hpr)] at hfalse
            exact Bool.noConfusion hfalse
      · exact Or.inr (renderCard_noPosition item s hast (Or.inl hpos)).1

theorem dashboard_pnl_block_iff_witness :
    (renderCard c2ScenarioItem).positionBlock = PositionBlock.noCurrentPosition ∧
    (renderCard c2ScenarioItem).hasComputedPnl = false :=
  ⟨(dashboard_pnl_block_iff c2ScenarioItem).2.2.1,
   (dashboard_pnl_block_iff c2ScenarioItem).2.2.2⟩

/-! ## Dashboard fetch failure handling -/

/-- C6 (amended): on a failed dashboard fetch, when the loading-message
element existed at page load the container is left untouched and only the
loading text becomes the error message; when it did not exist, the whole
container content is replaced by the error paragraph.  Either way the
loading-element flag itself is unchanged and the refresh terminates. -/
theorem dashboard_fetch_error_fail_soft (st : DashboardPageState) (o : DashFetchOutcome)
    (h : o.isFailure = true) :
    (st.hasLoadingMessage = true →
      (fetchDashboardStep st o).container = st.container ∧
      (fetchDashboardStep st o).loadingText = "Error loading strategies.") ∧
    (st.hasLoadingMessage = false →
      (fetchDashboardStep st o).container = ContainerContent.fetchErrorMessage ∧
      (fetchDashboardStep st o).loadingText = st.loadingText) ∧
    (fetchDashboardStep st o).hasLoadingMessage = st.hasLoadingMessage := by
  cases o with
  | ok d => exact Bool.noConfusion h
  | transportError =>
    cases hm : st.hasLoadingMessage <;>
      simp [fetchDashboardStep, hm]
  | httpError status =>
    cases hm : st.hasLoadingMessage <;>
      simp [fetchDashboardStep, hm]

theorem dashboard_fetch_error_fail_soft_witness :
    DashFetchOutcome.transportError.isFailure = true ∧
    c6StateWithIndicator.hasLoadingMessage = true ∧
    (fetchDashboardStep c6StateWithIndicator .transportError).container =
      c6StateWithIndicator.container ∧
    (fetchDashboardStep c6StateWithIndicator .transportError).loadingText =
      "Error loading strategies." := by
  refine ⟨rfl, rfl, ?_, ?_⟩
  · exact ((dashboard_fetch_error_fail_soft c6StateWithIndicator .transportError rfl).1 rfl).1
  · exact ((dashboard_fetch_error_fail_soft c6StateWithIndicator .transportError rfl).1 rfl).2

/-- C6 (counterexample to the claim as stated): on a page whose loading
element was absent at load, a failed fetch does not leave the previously
rendered card content in place: the container is overwritten with the error
paragraph. -/
theorem dashboard_fetch_error_clobbers_container :
    DashFetchOutcome.transportError.isFailure = true ∧
    c6StateNoIndicator.container = c6PriorCards ∧
    (fetchDashboardStep c6StateNoIndicator .transportError).container ≠ c6PriorCards := by
  refine ⟨rfl, rfl, ?_⟩
  intro hcontra
  rw [show (fetchDashboardStep c6StateNoIndicator .transportError).container =
      ContainerContent.fetchErrorMessage from rfl] at hcontra
  exact ContainerContent.noConfusion hcontra

/-! ## API-key manager claims -/

/-- C8: a failed API-key list fetch replaces the table body with the single
explanatory row and leaves every other part of the page state — the form
fields, the form visibility and the current edit id — unchanged. -/
theorem apiKey_fetch_error_frame (st : ApiPageState) (o : ApiFetchOutcome)
    (h : o.isFailure = true) :
    (fetchApiKeysStep st o).tableBody = ApiTableContent.errorRow ∧
    (fetchApiKeysStep st o).formVisible = st.formVisible ∧
    (fetchApiKeysStep st o).formAlias = st.formAlias ∧
    (fetchApiKeysStep st o).formApiKey = st.formApiKey ∧
    (fetchApiKeysStep st o).formSecretKey = st.formSecretKey ∧
    (fetchApiKeysStep st o).formMode = st.formMode ∧
    (fetchApiKeysStep st o).currentEditApiId = st.currentEditApiId := by
  cases o with
  | ok keys => exact Bool.noConfusion h
  | transportError => exact ⟨rfl, rfl, rfl, rfl, rfl, rfl, rfl⟩
  | httpError status => exact ⟨rfl, rfl, rfl, rfl, rfl, rfl, rfl⟩

theorem apiKey_fetch_error_frame_witness :
    (ApiFetchOutcome.httpError 500).isFailure = true ∧
    (fetchApiKeysStep c8State (.httpError 500)).tableBody = ApiTableContent.errorRow ∧
    (fetchApiKeysStep c8State (.httpError 500)).formVisible = c8State.formVisible ∧
    (fetchApiKeysStep c8State (.httpError 500)).currentEditApiId = c8State.currentEditApiId := by
  refine ⟨rfl, ?_, ?_, ?_⟩
  · exact (apiKey_fetch_error_frame c8State (.httpError 500) rfl).1
  · exact (apiKey_fetch_error_frame c8State (.httpError 500) rfl).2.1
  · exact (apiKey_fetch_error_frame c8State (.httpError 500) rfl).2.2.2.2.2.2

theorem listTake_min (l : List Char) (n : Nat) : l.take (min n l.length) = l.take n := by
  rcases Nat.le_total n l.length with h | h
  · rw [Nat.min_eq_left h]
  · rw [Nat.min_eq_right h, List.take_of_length_le h, List.take_of_length_le (le_refl _)]

theorem listDrop_sub_reverse (l : List Char) (n : Nat) :
    l.drop (l.length - n) = (l.reverse.take n).reverse := by
  have h := List.reverse_drop (l := l) (n := l.length - n)
  have h2 : l.drop (l.length - n) = (l.reverse.take (l.length - (l.length - n))).reverse := by
    rw [← h, List.reverse_reverse]
  rw [h2]
  congr 1
  rcases Nat.le_total n l.length with hle | hle
  · rw [Nat.sub_sub_self hle]
  · rw [Nat.sub_eq_zero_of_le hle, Nat.sub_zero, List.take_of_length_le (by simp [hle]),
      List.take_of_length_le (by simp [hle])]

/-- C7: the key cell of a rendered credential row shows exactly the first
four characters of `api_key`, the `...` separator, and the last four
characters (never the middle), and the rendered row does not depend on the
`secret_key` field in any way. -/
theorem apiKey_row_masks_key_and_secret (k : ApiKeyRecord) :
    (renderApiKeyRow k).keyCell.toList =
      k.api_key.toList.take 4 ++ [ '.', '.', '.' ] ++ (k.api_key.toList.reverse.take 4).reverse ∧
    ∀ s, renderApiKeyRow { k with secret_key := s } = renderApiKeyRow k := by
  constructor
  · show (jsSubstring k.api_key 0 (some 4) ++ "..." ++
        jsSubstring k.api_key (k.api_key.length - 4) none).toList = _
    have hfirst : (jsSubstring k.api_key 0 (some 4)).toList = k.api_key.toList.take 4 := by
      show ((k.api_key.toList.drop _).take _) = _
      simp only [Nat.zero_min, Nat.min_zero, Nat.sub_zero, List.drop_zero,
        Nat.max_eq_right (Nat.zero_le _)]
      exact listTake_min k.api_key.toList 4
    have hlen : k.api_key.length = k.api_key.toList.length := rfl
    have hlast : (jsSubstring k.api_key (k.api_key.length - 4) none).toList =
        (k.api_key.toList.reverse.take 4).reverse := by
      show ((k.api_key.toList.drop _).take _) = _
      rw [hlen]
      have hb : min (k.api_key.toList.length - 4) k.api_key.toList.length =
          k.api_key.toList.length - 4 := Nat.min_eq_left (Nat.sub_le _ _)
      simp only [Option.getD, Nat.min_self, hb, Nat.max_eq_right (Nat.sub_le _ _),
        Nat.min_eq_left (Nat.sub_le _ _)]
      rw [List.take_of_length_le (by simp), listDrop_sub_reverse]
    calc (jsSubstring k.api_key 0 (some 4) ++ "..." ++
        jsSubstring k.api_key (k.api_key.length - 4) none).toList
        = (jsSubstring k.api_key 0 (some 4)).toList ++ "...".toList ++
            (jsSubstring k.api_key (k.api_key.length - 4) none).toList := by
          simp [String.toList]
      _ = k.api_key.toList.take 4 ++ [ '.', '.', '.' ] ++
            (k.api_key.toList.reverse.take 4).reverse := by rw [hfirst, hlast]; rfl
  · intro s
    rfl

theorem mem_of_mem_jsObjDelete {α : Type} (l : List (String × α)) (k : String)
    (x : String × α) (h : x ∈ jsObjDelete l k) : x ∈ l := by
  induction l with
  | nil => simp [jsObjDelete] at h
  | cons kv rest ih =>
    obtain ⟨k0, v0⟩ := kv
    by_cases hk : k0 = k
    · rw [jsObjDelete, if_pos hk] at h
      exact List.mem_cons_of_mem _ (ih h)
    · rw [jsObjDelete, if_neg hk] at h
      rcases List.mem_cons.mp h with h | h
      · exact h ▸ List.mem_cons_self _ _
      · exact List.mem_cons_of_mem _ (ih h)

theorem apiKeySubmit_edit (editId : String) (f : ApiKeyFormFields) :
    apiKeySubmit (some editId) f =
      .request ("/apis/" ++ editId) "PUT"
        (jsObjDelete (if f.secret_key = "" then jsObjDelete (apiKeyFormEntries f) "secret_key"
            else apiKeyFormEntries f) "apiId") := by
  have hget : jsObjGet (apiKeyFormEntries f) "secret_key" = some (JsVal.str f.secret_key) := by
    simp [apiKeyFormEntries, jsObjGet]
  unfold apiKeySubmit
  dsimp only
  rw [hget]
  by_cases h : f.secret_key = "" <;> simp [jsTruthyOpt, JsVal.truthy, h]

/-- C4: submitting the API-key form in edit mode with a blank secret field
produces a `PUT` whose JSON body does not contain the key `secret_key` at
all; with a non-blank secret the body contains `secret_key` with exactly the
entered value. -/
theorem apiKey_edit_secret_policy (editId : String) (f : ApiKeyFormFields) :
    (f.secret_key = "" →
      ∃ b, apiKeySubmit (some editId) f = .request ("/apis/" ++ editId) "PUT" b ∧
        ∀ v, ("secret_key", v) ∉ b) ∧
    (f.secret_key ≠ "" →
      ∃ b, apiKeySubmit (some editId) f = .request ("/apis/" ++ editId) "PUT" b ∧
        jsObjGet b "secret_key" = some (.str f.secret_key)) := by
  constructor
  · intro h
    refine ⟨_, by rw [apiKeySubmit_edit, if_pos h], ?_⟩
    intro v hv
    exact not_mem_jsObjDelete_self _ _ _ (mem_of_mem_jsObjDelete _ _ _ hv)
  · intro h
    refine ⟨_, by rw [apiKeySubmit_edit, if_neg h], ?_⟩
    rw [jsObjGet_delete_other _ _ _ (by decide)]
    simp [apiKeyFormEntries, jsObjGet]

theorem apiKey_edit_secret_policy_witness :
    c4BlankSecret.secret_key = "" ∧ c4NewSecret.secret_key ≠ "" ∧
    (∃ b, apiKeySubmit (some "9") c4BlankSecret = .request ("/apis/" ++ "9") "PUT" b ∧
        ∀ v, ("secret_key", v) ∉ b) ∧
    (∃ b, apiKeySubmit (some "9") c4NewSecret = .request ("/apis/" ++ "9") "PUT" b ∧
        jsObjGet b "secret_key" = some (.str c4NewSecret.secret_key)) := by
  refine ⟨rfl, by decide, ?_, ?_⟩
  · exact (apiKey_edit_secret_policy "9" c4BlankSecret).1 rfl
  · exact (apiKey_edit_secret_policy "9" c4NewSecret).2 (by decide)

/-! ## Strategy creation form claims -/

theorem buildFormDataObj_not_mem (entries : List (String × String))
    (acc : List (String × JsVal)) (k : String) (h : k ∉ entries.map Prod.fst) :
    jsObjGet (buildFormDataObj entries acc) k = jsObjGet acc k := by
  induction entries generalizing acc with
  | nil => rfl
  | cons kv rest ih =>
    obtain ⟨k0, v0⟩ := kv
    have hk0 : k0 ≠ k := by
      intro hc
      exact h (by simp [hc])
    have hrest : k ∉ rest.map Prod.fst := by
      intro hc
      exact h (by simp [hc])
    rw [buildFormDataObj]
    by_cases hcb : isCheckboxKey k0
    · rw [if_pos hcb, ih _ hrest]
    · rw [if_neg hcb]
      by_cases hnm : hasNumericMarker k0
      · rw [if_pos hnm, ih _ hrest, jsObjGet_set_other _ _ _ _ hk0]
      · rw [if_neg hnm, ih _ hrest, jsObjGet_set_other _ _ _ _ hk0]

theorem buildFormDataObj_mem_marker (entries : List (String × String))
    (acc : List (String × JsVal)) (k v : String)
    (hnd : (entries.map Prod.fst).Nodup) (hm : (k, v) ∈ entries)
    (hcb : isCheckboxKey k = false) (hnm : hasNumericMarker k = true) :
    jsObjGet (buildFormDataObj entries acc) k = some (jsParseFloat v) := by
  induction entries generalizing acc with
  | nil => exact absurd hm (List.not_mem_nil _)
  | cons kv rest ih =>
    obtain ⟨k0, v0⟩ := kv
    rw [List.map_cons, List.nodup_cons] at hnd
    by_cases hk0 : k0 = k
    · subst hk0
      have hv : v0 = v := by
        rcases List.mem_cons.mp hm with h | h
        · exact (congrArg Prod.snd h).symm
        · exact absurd (List.mem_map_of_mem Prod.fst h) hnd.1
      subst hv
      rw [buildFormDataObj]
      rw [if_neg (by simp [hcb]), if_pos hnm,
        buildFormDataObj_not_mem rest _ k0 hnd.1, jsObjGet_set_self]
    · have hrest : (k, v) ∈ rest := by
        rcases List.mem_cons.mp hm with h | h
        · exact absurd (congrArg Prod.fst h).symm hk0
        · exact h
      rw [buildFormDataObj]
      by_cases hcb0 : isCheckboxKey k0
      · rw [if_pos hcb0]
        exact ih _ hnd.2 hrest
      · rw [if_neg hcb0]
        by_cases hnm0 : hasNumericMarker k0
        · rw [if_pos hnm0]
          exact ih _ hnd.2 hrest
        · rw [if_neg hnm0]
          exact ih _ hnd.2 hrest

theorem addStrategySubmit_request_body (inp : AddStrategyInputs) (u m : String)
    (b : List (String × JsVal)) (hreq : addStrategySubmit inp = .request u m b) :
    b = addStrategyPayload inp := by
  unfold addStrategySubmit at hreq
  split at hreq
  · injection hreq with h1 h2 h3
    exact h3.symm
  · exact SubmitAction.noConfusion hreq

/-- C5: whenever the add-strategy submit actually issues a request, the
payload contains the key `order_timeout_seconds` exactly when the
`enable_order_timeout` checkbox is checked; unchecked submissions omit the
key entirely. -/
theorem addStrategy_timeout_key_presence (inp : AddStrategyInputs) (u m : String)
    (b : List (String × JsVal)) (hreq : addStrategySubmit inp = .request u m b) :
    (inp.enable_order_timeout = false → jsObjGet b "order_timeout_seconds" = none) ∧
    (inp.enable_order_timeout = true →
      ∃ jv, jsObjGet b "order_timeout_seconds" = some jv) := by
  rw [addStrategySubmit_request_body inp u m b hreq]
  constructor
  · intro h
    simp only [addStrategyPayload, h, Bool.false_eq_true, if_false]
    exact jsObjGet_delete_self _ _
  · intro h
    simp only [addStrategyPayload, h, if_true]
    exact ⟨_, jsObjGet_set_self _ _ _⟩

theorem addStrategy_timeout_key_presence_witness :
    c5Unchecked.enable_order_timeout = false ∧ c5Checked.enable_order_timeout = true ∧
    jsObjGet [("strategy_name", JsVal.str "g"), ("api_id", JsVal.str "k1"),
        ("cyclic_execution", JsVal.bool false),
        ("cover_orders_participate_in_profit_taking", JsVal.bool false),
        ("enable_order_timeout", JsVal.bool false)] "order_timeout_seconds" = none ∧
    (∃ jv, jsObjGet [("strategy_name", JsVal.str "g"), ("api_id", JsVal.str "k1"),
        ("order_timeout_seconds", JsVal.nan), ("cyclic_execution", JsVal.bool false),
        ("cover_orders_participate_in_profit_taking", JsVal.bool false),
        ("enable_order_timeout", JsVal.bool true)] "order_timeout_seconds" = some jv) := by
  refine ⟨rfl, rfl, ?_, ?_⟩
  · exact (addStrategy_timeout_key_presence c5Unchecked "/strategies/" "POST" _
      (by decide)).1 rfl
  · exact (addStrategy_timeout_key_presence c5Checked "/strategies/" "POST" _
      (by decide)).2 rfl

/-- C9 (amended): on a submission that issues a request, a form field whose
name contains a numeric marker, is not one of the checkbox keys, and whose
value does not parse as a number is present in the serialised JSON payload
with value `null` — except that for `order_timeout_seconds` this holds only
when `enable_order_timeout` is checked (the unchecked case deletes the key;
its value is then re-read from the input element, which must also be
unparsable). -/
theorem addStrategy_numeric_blank_null (inp : AddStrategyInputs) (k v u m : String)
    (b : List (String × JsVal))
    (hnd : (inp.formEntries.map Prod.fst).Nodup)
    (hm : (k, v) ∈ inp.formEntries)
    (hnm : hasNumericMarker k = true)
    (hcb : isCheckboxKey k = false)
    (hnan : parseFloatQ v = none)
    (hto : k = "order_timeout_seconds" →
      inp.enable_order_timeout = true ∧ parseFloatQ inp.order_timeout_seconds_value = none)
    (hreq : addStrategySubmit inp = .request u m b) :
    jsObjGet (serializeBody b) k = some JsonVal.null := by
  rw [addStrategySubmit_request_body inp u m b hreq, jsObjGet_serializeBody]
  have hks : "cyclic_execution" ≠ k ∧ "cover_orders_participate_in_profit_taking" ≠ k ∧
      "enable_order_timeout" ≠ k := by
    refine ⟨?_, ?_, ?_⟩ <;> intro hc <;> rw [← hc] at hcb <;> simp [isCheckboxKey] at hcb
  have hnanval : jsParseFloat v = .nan := by
    rw [jsParseFloat, hnan]
  have hchain : jsObjGet (jsObjSet (jsObjSet (jsObjSet (buildFormDataObj inp.formEntries [])
      "cyclic_execution" (.bool inp.cyclic_execution))
      "cover_orders_participate_in_profit_taking"
        (.bool inp.cover_orders_participate_in_profit_taking))
      "enable_order_timeout" (.bool inp.enable_order_timeout)) k = some JsVal.nan := by
    rw [jsObjGet_set_other _ _ _ _ hks.2.2, jsObjGet_set_other _ _ _ _ hks.2.1,
      jsObjGet_set_other _ _ _ _ hks.1,
      buildFormDataObj_mem_marker _ _ _ _ hnd hm hcb hnm, hnanval]
  by_cases hkto : k = "order_timeout_seconds"
  · obtain ⟨hen, hnan2⟩ := hto hkto
    simp only [addStrategyPayload, hen, if_true]
    subst hkto
    rw [jsObjGet_set_self]
    simp [jsParseFloat, hnan2, JsVal.toJson]
  · by_cases hen : inp.enable_order_timeout
    · simp only [addStrategyPayload]
      rw [if_pos hen, jsObjGet_set_other _ _ _ _ (fun hc => hkto hc.symm), hchain]
      rfl
    · simp only [addStrategyPayload]
      rw [if_neg hen, jsObjGet_delete_other _ _ _ (fun hc => hkto hc.symm), hchain]
      rfl

theorem addStrategy_numeric_blank_null_witness :
    jsObjGet (serializeBody [("api_id", JsVal.str "k1"), ("buy_amount", JsVal.nan),
        ("order_timeout_seconds", JsVal.nan), ("cyclic_execution", JsVal.bool false),
        ("cover_orders_participate_in_profit_taking", JsVal.bool false),
        ("enable_order_timeout", JsVal.bool true)]) "buy_amount" = some JsonVal.null ∧
    jsObjGet (serializeBody [("api_id", JsVal.str "k1"), ("buy_amount", JsVal.nan),
        ("order_timeout_seconds", JsVal.nan), ("cyclic_execution", JsVal.bool false),
        ("cover_orders_participate_in_profit_taking", JsVal.bool false),
        ("enable_order_timeout", JsVal.bool true)]) "order_timeout_seconds" =
      some JsonVal.null := by
  constructor
  · exact addStrategy_numeric_blank_null c9BlankMarkerInputs "buy_amount" "" "/strategies/"
      "POST" _ (by decide) (by decide) (by decide) (by decide) (by decide)
      (by intro hc; exact absurd hc (by decide)) (by decide)
  · exact addStrategy_numeric_blank_null c9BlankMarkerInputs "order_timeout_seconds" ""
      "/strategies/" "POST" _ (by decide) (by decide) (by decide) (by decide) (by decide)
      (fun _ => ⟨rfl, by decide⟩) (by decide)

/-- C9 (counterexample to the claim as stated): a submission with the
order-timeout checkbox unchecked and a blank `order_timeout_seconds` entry —
a blank field whose name contains the numeric marker `seconds` — issues a
request whose payload does not contain the key at all, rather than
containing it with value `null`. -/
theorem addStrategy_blank_seconds_dropped :
    ("order_timeout_seconds", "") ∈ c9DroppedInputs.formEntries ∧
    hasNumericMarker "order_timeout_seconds" = true ∧
    parseFloatQ "" = none ∧
    addStrategySubmit c9DroppedInputs = .request "/strategies/" "POST"
      [("api_id", JsVal.str "k1"), ("cyclic_execution", JsVal.bool false),
       ("cover_orders_participate_in_profit_taking", JsVal.bool false),
       ("enable_order_timeout", JsVal.bool false)] ∧
    jsObjGet (serializeBody [("api_id", JsVal.str "k1"), ("cyclic_execution", JsVal.bool false),
       ("cover_orders_participate_in_profit_taking", JsVal.bool false),
       ("enable_order_timeout", JsVal.bool false)]) "order_timeout_seconds" = none := by
  exact ⟨by decide, by decide, by decide, by decide, by decide⟩
